import Mathlib

/-!
# EasyDict native attach hook (`android/app/src/main/cpp/jni_init.cpp`)

A shallow embedding of the JNI attach hook `JNI_OnLoad` and of the
retained-symbol table `g_zstd_symbols`.

The hook is effectful: it calls the Android log facility and the dynamic
loader.  Those platform calls are modelled by explicit state passing over a
`World` that records every external call in a trace.  Undefined behaviour
(an out-of-range table read, a `printf` conversion that does not match its
argument, a null `%s` argument) is modelled by the `Except Fault` result.
-/

namespace EasyDict

/-! ## Platform model -/

/-- Log priorities of `android/log.h` (`enum android_LogPriority`). -/
inductive android_LogPriority where
  | ANDROID_LOG_UNKNOWN
  | ANDROID_LOG_DEFAULT
  | ANDROID_LOG_VERBOSE
  | ANDROID_LOG_DEBUG
  | ANDROID_LOG_INFO
  | ANDROID_LOG_WARN
  | ANDROID_LOG_ERROR
  | ANDROID_LOG_FATAL
  | ANDROID_LOG_SILENT
  deriving DecidableEq, Repr

open android_LogPriority

/-- The sixteen functions declared in the `extern "C"` block (lines 12-27). -/
inductive ZstdFn where
  | ZSTD_createDCtx
  | ZSTD_createCCtx
  | ZSTD_createDDict
  | ZSTD_createCDict
  | ZSTD_decompress_usingDDict
  | ZSTD_compress_usingCDict
  | ZSTD_freeDCtx
  | ZSTD_freeCCtx
  | ZSTD_freeDDict
  | ZSTD_freeCDict
  | ZSTD_getFrameContentSize
  | ZSTD_isError
  | ZSTD_getErrorName
  | ZSTD_decompress
  | ZSTD_compress
  | ZSTD_compressBound
  deriving DecidableEq, Repr

open ZstdFn

/-- One call that leaves the module: the alphabet of everything the shared
object links against (`liblog`, the dynamic loader, `libzstd`). -/
inductive Event where
  /-- A line handed to the log facility: priority, tag, rendered text. -/
  | log (prio : android_LogPriority) (tag : String) (text : String)
  /-- A dynamic-load request: file name, flags, and the handle it returned. -/
  | dlopen (filename : String) (flags : Nat) (handle : Nat)
  /-- A query of the loader's pending diagnostic, and what it returned. -/
  | dlerror (result : Option String)
  /-- Closing a loader handle. -/
  | dlclose (handle : Nat)
  /-- An invocation of one of the declared compression functions. -/
  | zstd (f : ZstdFn)
  deriving DecidableEq, Repr

/-- Ways in which the C++ code could leave defined behaviour. -/
inductive Fault where
  | outOfBounds
  | badFormat
  | nullString
  deriving DecidableEq, Repr

/-- A variadic argument of `__android_log_print`: a pointer value or a
`char*` (which may be `NULL`, here `none`). -/
inductive Arg where
  | ptr (addr : Nat)
  | str (s : Option String)
  deriving DecidableEq, Repr

/-- The immutable part of the platform: header constants of `dlfcn.h`, the
implementation-defined rendering of `%p`, and the behaviour of the dynamic
loader (which handle a request yields, `0` being `NULL`, and which diagnostic
it records when the request fails). -/
structure Platform where
  RTLD_NOW : Nat
  RTLD_GLOBAL : Nat
  showPtr : Nat → String
  dlopenHandle : String → Nat → Nat
  dlopenDiag : String → Nat → String

/-- The mutable part of the platform: the loader's pending diagnostic (what
the next `dlerror()` returns, `none` being `NULL`) and the trace of external
calls made so far, oldest first. -/
structure World where
  dlerrorPending : Option String
  trace : List Event
  deriving DecidableEq, Repr

/-- Value of `JNI_VERSION_1_6` in `jni.h`. -/
def JNI_VERSION_1_6 : Int := 0x00010006

/-- Rendering of a `printf` format over its arguments, for the conversions
this file uses (`%p`, `%s`, and the literal `%%`).  A conversion without a
matching argument is a fault; surplus arguments are ignored. -/
def vformat (showPtr : Nat → String) : List Char → List Arg → Except Fault (List Char)
  | [], _ => .ok []
  | c :: rest, args =>
    if c = '%' then
      match rest, args with
      | '%' :: rest1, args1 => (vformat showPtr rest1 args1).map (fun t => '%' :: t)
      | 'p' :: rest1, Arg.ptr a :: args1 =>
        (vformat showPtr rest1 args1).map (fun t => (showPtr a).data ++ t)
      | 's' :: rest1, Arg.str (some s) :: args1 =>
        (vformat showPtr rest1 args1).map (fun t => s.data ++ t)
      | 's' :: _, Arg.str none :: _ => .error Fault.nullString
      | _, _ => .error Fault.badFormat
    else
      (vformat showPtr rest args).map (fun t => c :: t)

/-- Model of `__android_log_print(prio, tag, fmt, ...)`: renders the message and appends
one `Event.log` to the trace. -/
def __android_log_print (P : Platform) (prio : android_LogPriority) (tag fmt : String)
    (args : List Arg) (w : World) : Except Fault World :=
  match vformat P.showPtr fmt.data args with
  | .ok text => .ok { w with trace := w.trace ++ [Event.log prio tag (String.mk text)] }
  | .error e => .error e

/-- Model of `dlopen(filename, flags)`: the loader decides the handle; a failed request
records its diagnostic as the pending error. -/
def dlopen (P : Platform) (filename : String) (flags : Nat) (w : World) : Nat × World :=
  let handle := P.dlopenHandle filename flags
  (handle,
    { dlerrorPending :=
        if handle = 0 then some (P.dlopenDiag filename flags) else w.dlerrorPending
      trace := w.trace ++ [Event.dlopen filename flags handle] })

/-- Model of `dlerror()`: returns the pending diagnostic and clears it. -/
def dlerror (w : World) : Option String × World :=
  (w.dlerrorPending,
    { dlerrorPending := none, trace := w.trace ++ [Event.dlerror w.dlerrorPending] })

/-! ## The source file -/

/-- Line 5: `#define LOG_TAG "EasyDictNative"`. -/
def LOG_TAG : String := "EasyDictNative"

/-- Line 6: `#define LOGI(...) __android_log_print(ANDROID_LOG_INFO, LOG_TAG, __VA_ARGS__)`. -/
def LOGI (P : Platform) (fmt : String) (args : List Arg) (w : World) : Except Fault World :=
  __android_log_print P ANDROID_LOG_INFO LOG_TAG fmt args w

/-- Line 7: `#define LOGE(...) __android_log_print(ANDROID_LOG_ERROR, LOG_TAG, __VA_ARGS__)`. -/
def LOGE (P : Platform) (fmt : String) (args : List Arg) (w : World) : Except Fault World :=
  __android_log_print P ANDROID_LOG_ERROR LOG_TAG fmt args w

/-- Lines 12-27: the declared functions, in declaration order. -/
def declaredFunctions : List ZstdFn :=
  [ ZSTD_createDCtx,
    ZSTD_createCCtx,
    ZSTD_createDDict,
    ZSTD_createCDict,
    ZSTD_decompress_usingDDict,
    ZSTD_compress_usingCDict,
    ZSTD_freeDCtx,
    ZSTD_freeCCtx,
    ZSTD_freeDDict,
    ZSTD_freeCDict,
    ZSTD_getFrameContentSize,
    ZSTD_isError,
    ZSTD_getErrorName,
    ZSTD_decompress,
    ZSTD_compress,
    ZSTD_compressBound ]

/-- Lines 31-48: `static volatile void* g_zstd_symbols[]`.  The argument `link` is the
address the linker resolved each declared function to. -/
def g_zstd_symbols (link : ZstdFn → Nat) : List Nat :=
  [ link ZSTD_createDCtx,
    link ZSTD_createCCtx,
    link ZSTD_createDDict,
    link ZSTD_createCDict,
    link ZSTD_decompress_usingDDict,
    link ZSTD_compress_usingCDict,
    link ZSTD_freeDCtx,
    link ZSTD_freeCCtx,
    link ZSTD_freeDDict,
    link ZSTD_freeCDict,
    link ZSTD_getFrameContentSize,
    link ZSTD_isError,
    link ZSTD_getErrorName,
    link ZSTD_decompress,
    link ZSTD_compress,
    link ZSTD_compressBound ]

/-- An array read `table[i]`; reading past the end is a fault. -/
def readTable (table : List Nat) (i : Nat) : Except Fault Nat :=
  match table.get? i with
  | some a => .ok a
  | none => .error Fault.outOfBounds

/-- Lines 50-64: `extern "C" JNIEXPORT jint JNI_OnLoad(JavaVM* vm, void* reserved)`. -/
def JNI_OnLoad (P : Platform) (link : ZstdFn → Nat) (vm reserved : Nat) (w : World) :
    Except Fault (Int × World) := do
  let _ := vm
  let _ := reserved
  let w ← LOGI P "EasyDict JNI library loaded" [] w
  let a0 ← readTable (g_zstd_symbols link) 0
  let w ← LOGI P "ZSTD_createDCtx address: %p" [Arg.ptr a0] w
  let a2 ← readTable (g_zstd_symbols link) 2
  let w ← LOGI P "ZSTD_createDDict address: %p" [Arg.ptr a2] w
  let (handle, w) := dlopen P "libzstd.so" (P.RTLD_NOW ||| P.RTLD_GLOBAL) w
  if handle ≠ 0 then
    let w ← LOGI P "libzstd.so loaded successfully via dlopen" [] w
    return (JNI_VERSION_1_6, w)
  else
    let (msg, w) := dlerror w
    let w ← LOGE P "Failed to load libzstd.so: %s" [Arg.str msg] w
    return (JNI_VERSION_1_6, w)


/-! ## Observations on a run -/

/-- The handle the loader returns for the request of line 56. -/
def preloadHandle (P : Platform) : Nat :=
  P.dlopenHandle "libzstd.so" (P.RTLD_NOW ||| P.RTLD_GLOBAL)

/-- The diagnostic the loader records when the request of line 56 fails. -/
def preloadDiag (P : Platform) : String :=
  P.dlopenDiag "libzstd.so" (P.RTLD_NOW ||| P.RTLD_GLOBAL)

/-- The external calls made between world `w` and a later world `w1`. -/
def emitted (w w1 : World) : List Event :=
  w1.trace.drop w.trace.length

/-- Whether an event is a log line. -/
def Event.isLog : Event → Bool
  | .log _ _ _ => true
  | _ => false

/-- Whether an event is a log line of the given priority. -/
def Event.hasPrio (p : android_LogPriority) : Event → Bool
  | .log q _ _ => decide (q = p)
  | _ => false

/-- Whether an event is a dynamic-load request. -/
def Event.isDlopen : Event → Bool
  | .dlopen _ _ _ => true
  | _ => false

/-- Whether an event is a `dlerror` query. -/
def Event.isDlerror : Event → Bool
  | .dlerror _ => true
  | _ => false

/-- Whether an event closes a loader handle. -/
def Event.isDlclose : Event → Bool
  | .dlclose _ => true
  | _ => false

/-- Whether an event invokes a declared compression function. -/
def Event.isZstd : Event → Bool
  | .zstd _ => true
  | _ => false

/-- The attach message of line 51 as it reaches the log. -/
def attachLine : Event :=
  Event.log ANDROID_LOG_INFO "EasyDictNative" "EasyDict JNI library loaded"

/-- The message of line 52 as it reaches the log, printing address `a`. -/
def dctxLine (P : Platform) (a : Nat) : Event :=
  Event.log ANDROID_LOG_INFO "EasyDictNative" ("ZSTD_createDCtx address: " ++ P.showPtr a)

/-- The message of line 53 as it reaches the log, printing address `a`. -/
def ddictLine (P : Platform) (a : Nat) : Event :=
  Event.log ANDROID_LOG_INFO "EasyDictNative" ("ZSTD_createDDict address: " ++ P.showPtr a)

/-- The success message of line 58 as it reaches the log. -/
def successLine : Event :=
  Event.log ANDROID_LOG_INFO "EasyDictNative" "libzstd.so loaded successfully via dlopen"

/-- The failure message of line 60 as it reaches the log, with diagnostic `d`. -/
def failureLine (d : String) : Event :=
  Event.log ANDROID_LOG_ERROR "EasyDictNative" ("Failed to load libzstd.so: " ++ d)

/-- A platform on which the library is missing (LP64 bionic header values). -/
def platformMissing : Platform where
  RTLD_NOW := 2
  RTLD_GLOBAL := 256
  showPtr := fun a => "0x" ++ String.mk (Nat.toDigits 16 a)
  dlopenHandle := fun _ _ => 0
  dlopenDiag := fun name _ => "dlopen failed: library \"" ++ name ++ "\" not found"

/-- A platform on which the library is present (LP64 bionic header values). -/
def platformPresent : Platform where
  RTLD_NOW := 2
  RTLD_GLOBAL := 256
  showPtr := fun a => "0x" ++ String.mk (Nat.toDigits 16 a)
  dlopenHandle := fun name _ => if name = "libzstd.so" then 3405691582 else 0
  dlopenDiag := fun name _ => "dlopen failed: library \"" ++ name ++ "\" not found"

/-- A link map giving each declared function a distinct non-null address. -/
def sampleLink (f : ZstdFn) : Nat :=
  4096 + 64 * f.toCtorIdx

/-- A fresh world: no pending loader error and an empty trace. -/
def World.fresh : World :=
  { dlerrorPending := none, trace := [] }

/-- The events of one attach, in order, as a function of the loader's answer. -/
def attachEvents (P : Platform) (link : ZstdFn → Nat) : List Event :=
  if preloadHandle P ≠ 0 then
    [ attachLine, dctxLine P (link ZSTD_createDCtx), ddictLine P (link ZSTD_createDDict),
      Event.dlopen "libzstd.so" (P.RTLD_NOW ||| P.RTLD_GLOBAL) (preloadHandle P),
      successLine ]
  else
    [ attachLine, dctxLine P (link ZSTD_createDCtx), ddictLine P (link ZSTD_createDDict),
      Event.dlopen "libzstd.so" (P.RTLD_NOW ||| P.RTLD_GLOBAL) 0,
      Event.dlerror (some (preloadDiag P)),
      failureLine (preloadDiag P) ]

/-- The pending loader error after one attach. -/
def attachPending (P : Platform) (w : World) : Option String :=
  if preloadHandle P ≠ 0 then w.dlerrorPending else none

/-! ## Facts about the platform model -/

theorem log_attach (P : Platform) (w : World) :
    LOGI P "EasyDict JNI library loaded" [] w
      = .ok { w with trace := w.trace ++ [attachLine] } := by
  rfl

theorem log_dctx (P : Platform) (a : Nat) (w : World) :
    LOGI P "ZSTD_createDCtx address: %p" [Arg.ptr a] w
      = .ok { w with trace := w.trace ++ [dctxLine P a] } := by
  have hv : vformat P.showPtr "ZSTD_createDCtx address: %p".data [Arg.ptr a]
      = .ok ("ZSTD_createDCtx address: ".data ++ ((P.showPtr a).data ++ [])) := rfl
  unfold LOGI __android_log_print
  rw [hv, List.append_nil]
  rfl

theorem log_ddict (P : Platform) (a : Nat) (w : World) :
    LOGI P "ZSTD_createDDict address: %p" [Arg.ptr a] w
      = .ok { w with trace := w.trace ++ [ddictLine P a] } := by
  have hv : vformat P.showPtr "ZSTD_createDDict address: %p".data [Arg.ptr a]
      = .ok ("ZSTD_createDDict address: ".data ++ ((P.showPtr a).data ++ [])) := rfl
  unfold LOGI __android_log_print
  rw [hv, List.append_nil]
  rfl

theorem log_success (P : Platform) (w : World) :
    LOGI P "libzstd.so loaded successfully via dlopen" [] w
      = .ok { w with trace := w.trace ++ [successLine] } := by
  rfl

theorem log_failure (P : Platform) (d : String) (w : World) :
    LOGE P "Failed to load libzstd.so: %s" [Arg.str (some d)] w
      = .ok { w with trace := w.trace ++ [failureLine d] } := by
  have hv : vformat P.showPtr "Failed to load libzstd.so: %s".data [Arg.str (some d)]
      = .ok ("Failed to load libzstd.so: ".data ++ (d.data ++ [])) := rfl
  unfold LOGE __android_log_print
  rw [hv, List.append_nil]
  rfl

/-- Complete description of one run of the hook. -/
theorem JNI_OnLoad_run (P : Platform) (link : ZstdFn → Nat) (vm reserved : Nat) (w : World) :
    JNI_OnLoad P link vm reserved w
      = .ok (JNI_VERSION_1_6,
          { dlerrorPending := attachPending P w, trace := w.trace ++ attachEvents P link }) := by
  by_cases h : preloadHandle P = 0
  · have h0 : P.dlopenHandle "libzstd.so" (P.RTLD_NOW ||| P.RTLD_GLOBAL) = 0 := h
    simp [JNI_OnLoad, log_attach, log_dctx, log_ddict, log_failure, readTable, g_zstd_symbols,
      dlopen, dlerror, attachEvents, attachPending, h, h0, bind, Except.bind, pure, Except.pure,
      preloadDiag]
  · have h0 : ¬ P.dlopenHandle "libzstd.so" (P.RTLD_NOW ||| P.RTLD_GLOBAL) = 0 := h
    simp [JNI_OnLoad, log_attach, log_dctx, log_ddict, log_success, readTable, g_zstd_symbols,
      dlopen, attachEvents, attachPending, h, h0, bind, Except.bind, pure, Except.pure,
      preloadHandle]

/-- The success text differs from every rendering of the line-52 message. -/
theorem successText_ne_dctx (s : String) :
    "libzstd.so loaded successfully via dlopen" ≠ "ZSTD_createDCtx address: " ++ s := by
  intro h
  have h1 : some 'l' = some 'Z' := congrArg (fun t => t.data.head?) h
  exact absurd h1 (by decide)

/-- The success text differs from every rendering of the line-53 message. -/
theorem successText_ne_ddict (s : String) :
    "libzstd.so loaded successfully via dlopen" ≠ "ZSTD_createDDict address: " ++ s := by
  intro h
  have h1 : some 'l' = some 'Z' := congrArg (fun t => t.data.head?) h
  exact absurd h1 (by decide)

/-- The success text differs from every rendering of the line-60 message. -/
theorem successText_ne_failure (s : String) :
    "libzstd.so loaded successfully via dlopen" ≠ "Failed to load libzstd.so: " ++ s := by
  intro h
  have h1 : some 'l' = some 'F' := congrArg (fun t => t.data.head?) h
  exact absurd h1 (by decide)

/-- The failure text differs from the attach text. -/
theorem failureText_ne_attach (d : String) :
    "Failed to load libzstd.so: " ++ d ≠ "EasyDict JNI library loaded" := by
  intro h
  have h1 : some 'F' = some 'E' := congrArg (fun t => t.data.head?) h
  exact absurd h1 (by decide)

/-- The failure text differs from every rendering of the line-52 message. -/
theorem failureText_ne_dctx (d s : String) :
    "Failed to load libzstd.so: " ++ d ≠ "ZSTD_createDCtx address: " ++ s := by
  intro h
  have h1 : some 'F' = some 'Z' := congrArg (fun t => t.data.head?) h
  exact absurd h1 (by decide)

/-- The failure text differs from every rendering of the line-53 message. -/
theorem failureText_ne_ddict (d s : String) :
    "Failed to load libzstd.so: " ++ d ≠ "ZSTD_createDDict address: " ++ s := by
  intro h
  have h1 : some 'F' = some 'Z' := congrArg (fun t => t.data.head?) h
  exact absurd h1 (by decide)

/-- The failure text differs from the success text. -/
theorem failureText_ne_success (d : String) :
    "Failed to load libzstd.so: " ++ d ≠ "libzstd.so loaded successfully via dlopen" := by
  intro h
  have h1 : some 'F' = some 'l' := congrArg (fun t => t.data.head?) h
  exact absurd h1 (by decide)

theorem emitted_append (w : World) (p : Option String) (es : List Event) :
    emitted w { dlerrorPending := p, trace := w.trace ++ es } = es := by
  simp [emitted]

/-! ## The claims -/

/-- C1: for every loader outcome (null or non-null handle) and every `vm` and `reserved`,
`JNI_OnLoad` returns the same fixed token `JNI_VERSION_1_6`, which is `0x00010006`. -/
theorem JNI_OnLoad_returns_version (P : Platform) (link : ZstdFn → Nat) (vm reserved : Nat)
    (w : World) :
    (JNI_OnLoad P link vm reserved w).map Prod.fst = Except.ok JNI_VERSION_1_6
      ∧ JNI_VERSION_1_6 = 0x00010006 := by
  rw [JNI_OnLoad_run]
  exact ⟨rfl, rfl⟩

/-- C2: when the load request fails (null handle), the hook queries `dlerror` once, logs
exactly one error-level message, whose text is "Failed to load libzstd.so: " followed by
the string `dlerror` returned, logs no line with the success text, and still returns the
compatibility token. -/
theorem JNI_OnLoad_preload_failure (P : Platform) (link : ZstdFn → Nat) (vm reserved : Nat)
    (w : World) (h : preloadHandle P = 0) :
    ∃ w1 d, JNI_OnLoad P link vm reserved w = .ok (JNI_VERSION_1_6, w1)
      ∧ d = preloadDiag P
      ∧ (emitted w w1).filter Event.isDlerror = [Event.dlerror (some d)]
      ∧ (emitted w w1).filter (Event.hasPrio ANDROID_LOG_ERROR)
          = [Event.log ANDROID_LOG_ERROR "EasyDictNative" ("Failed to load libzstd.so: " ++ d)]
      ∧ (∀ prio tag,
          Event.log prio tag "libzstd.so loaded successfully via dlopen" ∉ emitted w w1) := by
  refine ⟨_, preloadDiag P, JNI_OnLoad_run P link vm reserved w, rfl, ?_⟩
  rw [emitted_append]
  simp [attachEvents, h, attachLine, dctxLine, ddictLine, failureLine, Event.isDlerror,
    Event.hasPrio, successText_ne_dctx, successText_ne_ddict, successText_ne_failure]

/-- Witness for C2: the platform without the library, a fresh world. -/
theorem JNI_OnLoad_preload_failure_witness :
    preloadHandle platformMissing = 0
      ∧ ∃ w1 d, JNI_OnLoad platformMissing sampleLink 1 0 World.fresh
            = .ok (JNI_VERSION_1_6, w1)
          ∧ d = preloadDiag platformMissing
          ∧ (emitted World.fresh w1).filter Event.isDlerror = [Event.dlerror (some d)]
          ∧ (emitted World.fresh w1).filter (Event.hasPrio ANDROID_LOG_ERROR)
              = [Event.log ANDROID_LOG_ERROR "EasyDictNative"
                  ("Failed to load libzstd.so: " ++ d)]
          ∧ (∀ prio tag,
              Event.log prio tag "libzstd.so loaded successfully via dlopen"
                ∉ emitted World.fresh w1) :=
  ⟨by decide, JNI_OnLoad_preload_failure platformMissing sampleLink 1 0 World.fresh (by decide)⟩

/-- C3: when the load request succeeds (non-null handle), the hook logs the info-level
message "libzstd.so loaded successfully via dlopen", logs no error-level message, and
does not query `dlerror` (so the loader's pending diagnostic is left as it was). -/
theorem JNI_OnLoad_preload_success (P : Platform) (link : ZstdFn → Nat) (vm reserved : Nat)
    (w : World) (h : preloadHandle P ≠ 0) :
    ∃ w1, JNI_OnLoad P link vm reserved w = .ok (JNI_VERSION_1_6, w1)
      ∧ Event.log ANDROID_LOG_INFO "EasyDictNative" "libzstd.so loaded successfully via dlopen"
          ∈ emitted w w1
      ∧ (emitted w w1).filter (Event.hasPrio ANDROID_LOG_ERROR) = []
      ∧ (emitted w w1).filter Event.isDlerror = []
      ∧ w1.dlerrorPending = w.dlerrorPending := by
  refine ⟨_, JNI_OnLoad_run P link vm reserved w, ?_⟩
  rw [emitted_append]
  simp [attachEvents, attachPending, h, attachLine, dctxLine, ddictLine, successLine,
    Event.isDlerror, Event.hasPrio]

/-- Witness for C3: the platform with the library, a fresh world. -/
theorem JNI_OnLoad_preload_success_witness :
    preloadHandle platformPresent ≠ 0
      ∧ ∃ w1, JNI_OnLoad platformPresent sampleLink 1 0 World.fresh
            = .ok (JNI_VERSION_1_6, w1)
          ∧ Event.log ANDROID_LOG_INFO "EasyDictNative"
              "libzstd.so loaded successfully via dlopen" ∈ emitted World.fresh w1
          ∧ (emitted World.fresh w1).filter (Event.hasPrio ANDROID_LOG_ERROR) = []
          ∧ (emitted World.fresh w1).filter Event.isDlerror = []
          ∧ w1.dlerrorPending = World.fresh.dlerrorPending :=
  ⟨by decide, JNI_OnLoad_preload_success platformPresent sampleLink 1 0 World.fresh (by decide)⟩

/-- C4: on every attach the hook issues exactly one dynamic-load request, for the name
"libzstd.so" with flags `RTLD_NOW | RTLD_GLOBAL`; there is no second request, also after
a failure, and no handle is closed. -/
theorem JNI_OnLoad_single_load_request (P : Platform) (link : ZstdFn → Nat)
    (vm reserved : Nat) (w : World) :
    ∃ w1, JNI_OnLoad P link vm reserved w = .ok (JNI_VERSION_1_6, w1)
      ∧ (emitted w w1).filter Event.isDlopen
          = [Event.dlopen "libzstd.so" (P.RTLD_NOW ||| P.RTLD_GLOBAL)
              (P.dlopenHandle "libzstd.so" (P.RTLD_NOW ||| P.RTLD_GLOBAL))]
      ∧ (emitted w w1).filter Event.isDlclose = [] := by
  refine ⟨_, JNI_OnLoad_run P link vm reserved w, ?_⟩
  rw [emitted_append]
  by_cases h : preloadHandle P = 0
  · have h0 : P.dlopenHandle "libzstd.so" (P.RTLD_NOW ||| P.RTLD_GLOBAL) = 0 := h
    simp [attachEvents, h, h0, attachLine, dctxLine, ddictLine, failureLine,
      Event.isDlopen, Event.isDlclose]
  · have h0 : ¬ P.dlopenHandle "libzstd.so" (P.RTLD_NOW ||| P.RTLD_GLOBAL) = 0 := h
    simp [attachEvents, h, h0, attachLine, dctxLine, ddictLine, successLine,
      Event.isDlopen, Event.isDlclose, preloadHandle]

/-- C5: the table `g_zstd_symbols` holds exactly one entry per declared function, in
declaration order (sixteen of them, none missing, none repeated); hence if every declared
function resolves to a non-null address, every table entry is non-null. -/
theorem g_zstd_symbols_covers_declarations (link : ZstdFn → Nat) :
    g_zstd_symbols link = declaredFunctions.map link
      ∧ (g_zstd_symbols link).length = 16
      ∧ declaredFunctions.length = 16
      ∧ declaredFunctions.Nodup
      ∧ (∀ f : ZstdFn, f ∈ declaredFunctions)
      ∧ (∀ f : ZstdFn, (g_zstd_symbols link).get? f.toCtorIdx = some (link f)
          ∧ declaredFunctions.get? f.toCtorIdx = some f)
      ∧ ((∀ f : ZstdFn, link f ≠ 0) → ∀ a ∈ g_zstd_symbols link, a ≠ 0) := by
  refine ⟨rfl, rfl, rfl, by decide, ?_, ?_, ?_⟩
  · intro f
    cases f <;> decide
  · intro f
    cases f <;> exact ⟨rfl, rfl⟩
  · intro hl a ha
    have hmap : g_zstd_symbols link = declaredFunctions.map link := rfl
    rw [hmap, List.mem_map] at ha
    obtain ⟨f, _, rfl⟩ := ha
    exact hl f

/-- Witness for C5: with the sample link map every declared function is non-null, and
so is every entry of the table. -/
theorem g_zstd_symbols_covers_declarations_witness :
    (∀ f : ZstdFn, sampleLink f ≠ 0) ∧ (∀ a ∈ g_zstd_symbols sampleLink, a ≠ 0) :=
  ⟨fun f => by cases f <;> decide,
    (g_zstd_symbols_covers_declarations sampleLink).2.2.2.2.2.2
      (fun f => by cases f <;> decide)⟩

/-- C6: for every input the hook is total (it reaches its return without a fault), and
its two table reads, at indices 0 and 2, are within the sixteen-entry table. -/
theorem JNI_OnLoad_total (P : Platform) (link : ZstdFn → Nat) (vm reserved : Nat)
    (w : World) :
    (∃ r, JNI_OnLoad P link vm reserved w = .ok r)
      ∧ (g_zstd_symbols link).length = 16
      ∧ 0 < (g_zstd_symbols link).length
      ∧ 2 < (g_zstd_symbols link).length
      ∧ (∃ a, readTable (g_zstd_symbols link) 0 = .ok a)
      ∧ (∃ a, readTable (g_zstd_symbols link) 2 = .ok a) :=
  ⟨⟨_, JNI_OnLoad_run P link vm reserved w⟩, rfl, Nat.zero_lt_succ 15,
    Nat.succ_lt_succ (Nat.succ_lt_succ (Nat.zero_lt_succ 13)), ⟨_, rfl⟩, ⟨_, rfl⟩⟩

/-- C7: every log line of the hook carries the tag "EasyDictNative"; each line is
info-level except the preload-failure message, which is error-level; and an error-level
line is emitted if and only if the preload fails. -/
theorem JNI_OnLoad_log_tag_and_levels (P : Platform) (link : ZstdFn → Nat)
    (vm reserved : Nat) (w : World) :
    ∃ w1, JNI_OnLoad P link vm reserved w = .ok (JNI_VERSION_1_6, w1)
      ∧ (∀ prio tag text, Event.log prio tag text ∈ emitted w w1 →
          tag = "EasyDictNative"
            ∧ (prio = ANDROID_LOG_INFO
                ∨ (prio = ANDROID_LOG_ERROR
                    ∧ text = "Failed to load libzstd.so: " ++ preloadDiag P)))
      ∧ (∀ prio tag d, Event.log prio tag ("Failed to load libzstd.so: " ++ d) ∈ emitted w w1 →
          prio = ANDROID_LOG_ERROR)
      ∧ ((∃ e ∈ emitted w w1, e.hasPrio ANDROID_LOG_ERROR = true) ↔ preloadHandle P = 0) := by
  refine ⟨_, JNI_OnLoad_run P link vm reserved w, ?_⟩
  rw [emitted_append]
  by_cases h : preloadHandle P = 0
  · refine ⟨?_, ?_, ?_⟩
    · intro prio tag text hmem
      simp [attachEvents, h, attachLine, dctxLine, ddictLine, failureLine] at hmem
      rcases hmem with ⟨rfl, rfl, _⟩ | ⟨rfl, rfl, _⟩ | ⟨rfl, rfl, _⟩ | ⟨rfl, rfl, rfl⟩ <;> simp
    · intro prio tag d hmem
      simp [attachEvents, h, attachLine, dctxLine, ddictLine, failureLine,
        failureText_ne_attach, failureText_ne_dctx, failureText_ne_ddict] at hmem
      exact hmem.1
    · simp [attachEvents, h, attachLine, dctxLine, ddictLine, failureLine, Event.hasPrio]
  · refine ⟨?_, ?_, ?_⟩
    · intro prio tag text hmem
      simp [attachEvents, h, attachLine, dctxLine, ddictLine, successLine] at hmem
      rcases hmem with ⟨rfl, rfl, _⟩ | ⟨rfl, rfl, _⟩ | ⟨rfl, rfl, _⟩ | ⟨rfl, rfl, _⟩ <;> simp
    · intro prio tag d hmem
      simp [attachEvents, h, attachLine, dctxLine, ddictLine, successLine,
        failureText_ne_attach, failureText_ne_dctx, failureText_ne_ddict,
        failureText_ne_success] at hmem
    · simp [attachEvents, h, attachLine, dctxLine, ddictLine, successLine, Event.hasPrio]

/-- C8: the effects of one attach come in a fixed order for both loader outcomes: the
attach message, the two address messages, the load request, then exactly one outcome
message (success or failure), then the return; four log lines in all, three of them
before the load request. -/
theorem JNI_OnLoad_effect_order (P : Platform) (link : ZstdFn → Nat) (vm reserved : Nat)
    (w : World) :
    ∃ w1, JNI_OnLoad P link vm reserved w = .ok (JNI_VERSION_1_6, w1)
      ∧ w1.trace = w.trace ++ emitted w w1
      ∧ (emitted w w1).take 4
          = [ Event.log ANDROID_LOG_INFO "EasyDictNative" "EasyDict JNI library loaded",
              Event.log ANDROID_LOG_INFO "EasyDictNative"
                ("ZSTD_createDCtx address: " ++ P.showPtr (link ZSTD_createDCtx)),
              Event.log ANDROID_LOG_INFO "EasyDictNative"
                ("ZSTD_createDDict address: " ++ P.showPtr (link ZSTD_createDDict)),
              Event.dlopen "libzstd.so" (P.RTLD_NOW ||| P.RTLD_GLOBAL) (preloadHandle P) ]
      ∧ ((emitted w w1).drop 4).filter Event.isLog
          = [ if preloadHandle P ≠ 0 then
                Event.log ANDROID_LOG_INFO "EasyDictNative"
                  "libzstd.so loaded successfully via dlopen"
              else
                Event.log ANDROID_LOG_ERROR "EasyDictNative"
                  ("Failed to load libzstd.so: " ++ preloadDiag P) ]
      ∧ ((emitted w w1).drop 4).filter Event.isDlopen = []
      ∧ ((emitted w w1).filter Event.isLog).length = 4
      ∧ (((emitted w w1).take 3).filter Event.isLog).length = 3 := by
  refine ⟨_, JNI_OnLoad_run P link vm reserved w, ?_⟩
  rw [emitted_append]
  by_cases h : preloadHandle P = 0
  · simp [attachEvents, h, attachLine, dctxLine, ddictLine, failureLine, Event.isLog,
      Event.isDlopen]
  · simp [attachEvents, h, attachLine, dctxLine, ddictLine, successLine, Event.isLog,
      Event.isDlopen]

/-- C9: the table is not read for logic and no declared function is invoked: two runs
that differ only in the table contents return the same value, make the same load request
with the same result, take the same branch, and emit the same events everywhere except
at the two address messages (positions 1 and 2); the trace holds only log, `dlopen` and
`dlerror` calls, never a call of a ZSTD function. -/
theorem JNI_OnLoad_table_not_load_bearing (P : Platform) (link1 link2 : ZstdFn → Nat)
    (vm reserved : Nat) (w : World) :
    ∃ r1 r2 w1 w2, JNI_OnLoad P link1 vm reserved w = .ok (r1, w1)
      ∧ JNI_OnLoad P link2 vm reserved w = .ok (r2, w2)
      ∧ r1 = r2
      ∧ (emitted w w1).filter Event.isDlopen = (emitted w w2).filter Event.isDlopen
      ∧ (emitted w w1).length = (emitted w w2).length
      ∧ (emitted w w1).take 1 = (emitted w w2).take 1
      ∧ (emitted w w1).drop 3 = (emitted w w2).drop 3
      ∧ (emitted w w1).get? 1
          = some (Event.log ANDROID_LOG_INFO "EasyDictNative"
              ("ZSTD_createDCtx address: " ++ P.showPtr (link1 ZSTD_createDCtx)))
      ∧ (emitted w w1).get? 2
          = some (Event.log ANDROID_LOG_INFO "EasyDictNative"
              ("ZSTD_createDDict address: " ++ P.showPtr (link1 ZSTD_createDDict)))
      ∧ w1.dlerrorPending = w2.dlerrorPending
      ∧ (∀ e ∈ emitted w w1, e.isLog = true ∨ e.isDlopen = true ∨ e.isDlerror = true)
      ∧ (∀ e ∈ emitted w w1, e.isZstd = false) := by
  refine ⟨_, _, _, _, JNI_OnLoad_run P link1 vm reserved w,
    JNI_OnLoad_run P link2 vm reserved w, rfl, ?_⟩
  rw [emitted_append, emitted_append]
  by_cases h : preloadHandle P = 0
  · simp [attachEvents, h, attachLine, dctxLine, ddictLine, failureLine, Event.isLog,
      Event.isDlopen, Event.isDlerror, Event.isZstd]
  · simp [attachEvents, h, attachLine, dctxLine, ddictLine, successLine, Event.isLog,
      Event.isDlopen, Event.isDlerror, Event.isZstd]

/-- C10: the two address messages agree with the table layout: the line labelled
"ZSTD_createDCtx address" prints table entry 0, which is the address of `ZSTD_createDCtx`,
and the line labelled "ZSTD_createDDict address" prints table entry 2, which is the
address of `ZSTD_createDDict`. -/
theorem JNI_OnLoad_address_labels (P : Platform) (link : ZstdFn → Nat) (vm reserved : Nat)
    (w : World) :
    ∃ w1, JNI_OnLoad P link vm reserved w = .ok (JNI_VERSION_1_6, w1)
      ∧ (g_zstd_symbols link).get? 0 = some (link ZSTD_createDCtx)
      ∧ (g_zstd_symbols link).get? 2 = some (link ZSTD_createDDict)
      ∧ (emitted w w1).get? 1
          = ((g_zstd_symbols link).get? 0).map (fun a =>
              Event.log ANDROID_LOG_INFO "EasyDictNative"
                ("ZSTD_createDCtx address: " ++ P.showPtr a))
      ∧ (emitted w w1).get? 2
          = ((g_zstd_symbols link).get? 2).map (fun a =>
              Event.log ANDROID_LOG_INFO "EasyDictNative"
                ("ZSTD_createDDict address: " ++ P.showPtr a)) := by
  refine ⟨_, JNI_OnLoad_run P link vm reserved w, rfl, rfl, ?_⟩
  rw [emitted_append]
  by_cases h : preloadHandle P = 0
  · simp [attachEvents, h, dctxLine, ddictLine, g_zstd_symbols]
  · simp [attachEvents, h, dctxLine, ddictLine, g_zstd_symbols]

end EasyDict
